import Mathlib

/-!
Shallow embedding of the rock-paper-scissors game logic from
src/script.js, together with theorems settling the specification
claims about it.

The embedding covers the game-state record, the round resolver
(determineWinner), the statistics update (updateGameState), the
derived win-rate accessor (calculateWinRate), the reset operation
(resetGame), the round driver (playRound) and the persistence pair
(saveGame / loadGame).  DOM manipulation, CSS classes and animation
timers are pure presentation and carry no state the claims mention,
so they are omitted; the `await delay(800)` suspend point inside
playRound is reflected by splitting the round into the phase before
the delay (startRound) and the phase after it (finishRound).
-/

namespace RPS

/-- The `CHOICES` enumeration: `['rock', 'paper', 'scissors']`. -/
inductive Choice where
  | rock
  | paper
  | scissors
deriving DecidableEq, Repr

/-- The `RESULTS` enumeration: `{WIN: 'win', LOSE: 'lose', TIE: 'tie'}`. -/
inductive Result where
  | win
  | lose
  | tie
deriving DecidableEq, Repr

/-- The mutable `gameState` record (src/script.js lines 7-17), all nine
fields.  JS numbers holding these small non-negative counters are
modelled as `Nat`. -/
structure GameState where
  playerScore : Nat
  computerScore : Nat
  gamesPlayed : Nat
  wins : Nat
  losses : Nat
  ties : Nat
  currentStreak : Nat
  bestStreak : Nat
  isPlaying : Bool
deriving DecidableEq, Repr

/-- The initial literal of `gameState`: every counter 0, `isPlaying: false`. -/
def initialState : GameState :=
  { playerScore := 0
    computerScore := 0
    gamesPlayed := 0
    wins := 0
    losses := 0
    ties := 0
    currentStreak := 0
    bestStreak := 0
    isPlaying := false }

/-- The `winConditions` lookup table inside `determineWinner`
(lines 78-82): for each choice, the choice it beats. -/
def winConditions : Choice → Choice
  | .rock => .scissors
  | .paper => .rock
  | .scissors => .paper

/-- `determineWinner(playerChoice, computerChoice)` (lines 73-89):
tie on equal choices, win when `winConditions[playerChoice] ===
computerChoice`, lose otherwise. -/
def determineWinner (playerChoice computerChoice : Choice) : Result :=
  if playerChoice = computerChoice then
    Result.tie
  else if winConditions playerChoice = computerChoice then
    Result.win
  else
    Result.lose

/-- `updateGameState(result)` (lines 105-127): `gamesPlayed++` always,
then a switch on the result.  The win branch bumps `playerScore`,
`wins` and `currentStreak`, then raises `bestStreak` when the new
`currentStreak` exceeds it; the lose branch bumps `computerScore` and
`losses` and zeroes `currentStreak`; the tie branch bumps `ties` only
(the streak continues on a tie). -/
def updateGameState (result : Result) (s : GameState) : GameState :=
  let s1 := { s with gamesPlayed := s.gamesPlayed + 1 }
  match result with
  | .win =>
      let s2 := { s1 with
        playerScore := s1.playerScore + 1
        wins := s1.wins + 1
        currentStreak := s1.currentStreak + 1 }
      if s2.currentStreak > s2.bestStreak then
        { s2 with bestStreak := s2.currentStreak }
      else
        s2
  | .lose =>
      { s1 with
        computerScore := s1.computerScore + 1
        losses := s1.losses + 1
        currentStreak := 0 }
  | .tie =>
      { s1 with ties := s1.ties + 1 }

/-- `calculateWinRate()` (lines 133-137): 0 when no games were played,
otherwise `Math.round((wins / gamesPlayed) * 100)`.  The JS double
arithmetic on these counters is modelled exactly over `ℚ`;
`Math.round x` is `⌊x + 1/2⌋` (half rounds toward positive infinity). -/
def calculateWinRate (s : GameState) : Int :=
  if s.gamesPlayed = 0 then 0
  else ⌊(s.wins : ℚ) / (s.gamesPlayed : ℚ) * 100 + 1 / 2⌋

/-- `resetGame()` (lines 256-276): assigns 0 to `playerScore`,
`computerScore`, `gamesPlayed`, `wins`, `losses`, `ties` and
`currentStreak`.  No assignment to `bestStreak` or `isPlaying`
appears in the function; both keep their prior values. -/
def resetGame (s : GameState) : GameState :=
  { s with
    playerScore := 0
    computerScore := 0
    gamesPlayed := 0
    wins := 0
    losses := 0
    ties := 0
    currentStreak := 0 }

/-- A fold of `updateGameState` over a list of round results, used to
speak about sequences of recorded rounds. -/
def runRounds (results : List Result) (s : GameState) : GameState :=
  results.foldl (fun t r => updateGameState r t) s

/-- What the `localStorage` cell under the key `rpsGameState` may hold
when `loadGame` reads it.  `absent` is `getItem` returning null;
`corrupt` is a stored string that `JSON.parse` rejects (it throws);
`blob g` is a stored string that `JSON.parse` deserializes to the
record `g` (the shape `saveGame` writes: all nine fields). -/
inductive StoredValue where
  | absent
  | corrupt
  | blob (g : GameState)
deriving DecidableEq, Repr

/-- `saveGame()` (lines 292-294): `JSON.stringify(gameState)` of the
entire record, every field included, written to storage. -/
def saveGame (s : GameState) : StoredValue :=
  StoredValue.blob s

/-- `loadGame()` (lines 299-306): a null `getItem` leaves the state
untouched; otherwise `JSON.parse(savedState)` runs with no try/catch,
so a corrupt value makes the call raise (the exception propagates to
the caller), and a parsed blob is merged wholesale into `gameState`
by `Object.assign` - since the blob carries all nine fields, the
merge replaces the whole record. -/
def loadGame (stored : StoredValue) (s : GameState) : Except Unit GameState :=
  match stored with
  | .absent => Except.ok s
  | .corrupt => Except.error ()
  | .blob g => Except.ok g

/-- The phase of `playRound(playerChoice)` (lines 217-251) before the
`await delay(800)` suspend point: return immediately (`none`) when the
`isPlaying` guard is set, otherwise set the guard.  The UI writes in
this phase touch no game state. -/
def startRound (s : GameState) : Option GameState :=
  if s.isPlaying then none
  else some { s with isPlaying := true }

/-- The phase of `playRound` after the delay: resolve the round with
the computer's choice, fold the result into the state, save the
snapshot to storage (the guard still set at that point), then clear
the guard.  Returns the final state and the saved blob. -/
def finishRound (playerChoice computerChoice : Choice) (s : GameState) :
    GameState × StoredValue :=
  let s2 := updateGameState (determineWinner playerChoice computerChoice) s
  let saved := saveGame s2
  ({ s2 with isPlaying := false }, saved)

/-- One whole `playRound(playerChoice)` call, the computer's random
choice passed as a parameter: either ignored because a round is
pending (state unchanged, nothing saved), or run to completion.
Returns the final state and the blob written to storage, if any. -/
def playRound (playerChoice computerChoice : Choice) (s : GameState) :
    GameState × Option StoredValue :=
  match startRound s with
  | none => (s, none)
  | some s1 =>
      let r := finishRound playerChoice computerChoice s1
      (r.1, some r.2)

/-! ## Helper lemmas -/

theorem updateGameState_gamesPlayed (r : Result) (s : GameState) :
    (updateGameState r s).gamesPlayed = s.gamesPlayed + 1 := by
  cases r <;> simp only [updateGameState] <;> first | rfl | (split <;> rfl)

theorem updateGameState_isPlaying (r : Result) (s : GameState) :
    (updateGameState r s).isPlaying = s.isPlaying := by
  cases r <;> simp only [updateGameState] <;> first | rfl | (split <;> rfl)

theorem updateGameState_outcomeSum (r : Result) (s : GameState) :
    (updateGameState r s).wins + (updateGameState r s).losses + (updateGameState r s).ties
      = s.wins + s.losses + s.ties + 1 := by
  cases r <;> simp only [updateGameState] <;> first | omega | (split <;> simp <;> omega)

theorem runRounds_counts (results : List Result) (s : GameState) :
    (runRounds results s).gamesPlayed = s.gamesPlayed + results.length ∧
    (runRounds results s).wins + (runRounds results s).losses + (runRounds results s).ties
      = s.wins + s.losses + s.ties + results.length := by
  induction results generalizing s with
  | nil => simp [runRounds]
  | cons r rs ih =>
      have h1 := updateGameState_gamesPlayed r s
      have h2 := updateGameState_outcomeSum r s
      have h3 := ih (updateGameState r s)
      simp only [runRounds, List.foldl_cons, List.length_cons] at *
      omega

/-! ## Claim theorems -/

/-- C4: determineWinner is a pure total function on the 3x3 grid of
choices: equal choices give a tie; the result is a win exactly on the
pairs (rock, scissors), (paper, rock), (scissors, paper); every
remaining unequal pair gives a lose. -/
theorem determineWinner_table (a b : Choice) :
    (determineWinner a b = Result.tie ↔ a = b) ∧
    (determineWinner a b = Result.win ↔
      ((a = Choice.rock ∧ b = Choice.scissors) ∨
       (a = Choice.paper ∧ b = Choice.rock) ∨
       (a = Choice.scissors ∧ b = Choice.paper))) ∧
    (determineWinner a b = Result.lose ↔
      (¬a = b ∧
       ¬((a = Choice.rock ∧ b = Choice.scissors) ∨
         (a = Choice.paper ∧ b = Choice.rock) ∨
         (a = Choice.scissors ∧ b = Choice.paper)))) := by
  cases a <;> cases b <;> decide

/-- C7: determineWinner is antisymmetric - swapping the arguments maps
win to lose and back - and for every pair exactly one of the three
outcomes win, lose, tie is returned. -/
theorem determineWinner_antisym_exclusive (a b : Choice) :
    (determineWinner a b = Result.win ↔ determineWinner b a = Result.lose) ∧
    (determineWinner a b = Result.win ∨ determineWinner a b = Result.lose ∨
      determineWinner a b = Result.tie) ∧
    ¬(determineWinner a b = Result.win ∧ determineWinner a b = Result.lose) ∧
    ¬(determineWinner a b = Result.win ∧ determineWinner a b = Result.tie) ∧
    ¬(determineWinner a b = Result.lose ∧ determineWinner a b = Result.tie) := by
  cases a <;> cases b <;> decide

/-- C3: starting from the zero state, after any sequence of recorded
rounds the state satisfies gamesPlayed = wins + losses + ties and
gamesPlayed equals the number of rounds recorded (every list of
outcomes covers the state after every call, since a prefix of a
sequence is itself a sequence). -/
theorem gamesPlayed_partition (results : List Result) :
    (runRounds results initialState).gamesPlayed
        = (runRounds results initialState).wins + (runRounds results initialState).losses
          + (runRounds results initialState).ties ∧
    (runRounds results initialState).gamesPlayed = results.length := by
  have h := runRounds_counts results initialState
  have h0 : initialState.gamesPlayed = 0 ∧ initialState.wins = 0 ∧
      initialState.losses = 0 ∧ initialState.ties = 0 := by decide
  omega

/-- C5: one updateGameState call performs exactly the transition table:
win increments playerScore, wins, currentStreak and raises bestStreak
to max(bestStreak, new currentStreak), leaving computerScore, losses,
ties unchanged; lose increments computerScore and losses and zeroes
currentStreak, leaving playerScore, wins, ties, bestStreak unchanged;
tie increments only ties; gamesPlayed always increments by one. -/
theorem updateGameState_transition_table (s : GameState) :
    ((updateGameState Result.win s).playerScore = s.playerScore + 1 ∧
     (updateGameState Result.win s).wins = s.wins + 1 ∧
     (updateGameState Result.win s).currentStreak = s.currentStreak + 1 ∧
     (updateGameState Result.win s).bestStreak = max s.bestStreak (s.currentStreak + 1) ∧
     (updateGameState Result.win s).computerScore = s.computerScore ∧
     (updateGameState Result.win s).losses = s.losses ∧
     (updateGameState Result.win s).ties = s.ties) ∧
    ((updateGameState Result.lose s).computerScore = s.computerScore + 1 ∧
     (updateGameState Result.lose s).losses = s.losses + 1 ∧
     (updateGameState Result.lose s).currentStreak = 0 ∧
     (updateGameState Result.lose s).playerScore = s.playerScore ∧
     (updateGameState Result.lose s).wins = s.wins ∧
     (updateGameState Result.lose s).ties = s.ties ∧
     (updateGameState Result.lose s).bestStreak = s.bestStreak) ∧
    ((updateGameState Result.tie s).ties = s.ties + 1 ∧
     (updateGameState Result.tie s).playerScore = s.playerScore ∧
     (updateGameState Result.tie s).computerScore = s.computerScore ∧
     (updateGameState Result.tie s).wins = s.wins ∧
     (updateGameState Result.tie s).losses = s.losses ∧
     (updateGameState Result.tie s).currentStreak = s.currentStreak ∧
     (updateGameState Result.tie s).bestStreak = s.bestStreak) ∧
    (∀ r : Result, (updateGameState r s).gamesPlayed = s.gamesPlayed + 1) := by
  refine ⟨?_, ?_, ?_, fun r => updateGameState_gamesPlayed r s⟩
  · simp only [updateGameState]
    split <;> simp <;> omega
  · simp only [updateGameState]
    simp
  · simp only [updateGameState]
    simp

/-- C8: the invariant bestStreak >= currentStreak holds in the initial
zero state, is preserved by updateGameState for every outcome, and
holds after resetGame applied to any state. -/
theorem bestStreak_ge_currentStreak :
    initialState.currentStreak ≤ initialState.bestStreak ∧
    (∀ (r : Result) (s : GameState), s.currentStreak ≤ s.bestStreak →
      (updateGameState r s).currentStreak ≤ (updateGameState r s).bestStreak) ∧
    (∀ s : GameState, (resetGame s).currentStreak ≤ (resetGame s).bestStreak) := by
  refine ⟨le_refl 0, ?_, fun s => Nat.zero_le _⟩
  intro r s h
  cases r <;> simp only [updateGameState]
  · split <;> simp <;> omega
  · simp
  · simpa using h

/-- C8 witness: the invariant theorem applied at the zero state and a
win outcome. -/
theorem bestStreak_ge_currentStreak_witness :
    initialState.currentStreak ≤ initialState.bestStreak ∧
    (updateGameState Result.win initialState).currentStreak
      ≤ (updateGameState Result.win initialState).bestStreak ∧
    (resetGame initialState).currentStreak ≤ (resetGame initialState).bestStreak :=
  ⟨bestStreak_ge_currentStreak.1,
   bestStreak_ge_currentStreak.2.1 Result.win initialState (by decide),
   bestStreak_ge_currentStreak.2.2 initialState⟩

/-- C1: evaluation at the failing input.  After a single win the
bestStreak is 1; resetGame then leaves bestStreak at 1, so the reset
state is not the initial all-zero state, contradicting the claim (and
the source comment "Reset the game to initial state") that every
field, bestStreak included, is 0 after reset. -/
theorem resetGame_keeps_bestStreak :
    (resetGame (updateGameState Result.win initialState)).bestStreak = 1 ∧
    resetGame (updateGameState Result.win initialState) ≠ initialState ∧
    initialState.bestStreak = 0 := by decide

/-- C2: evaluation at the failing input.  loadGame on a corrupt stored
value raises (JSON.parse throws with no surrounding try/catch), while
on a missing value it completes and leaves the state untouched -
contradicting the claim that both cases complete without error
identically. -/
theorem loadGame_corrupt_raises :
    loadGame StoredValue.corrupt initialState = Except.error () ∧
    loadGame StoredValue.absent initialState = Except.ok initialState :=
  ⟨rfl, rfl⟩

theorem roundHalfUp_eq_natDiv (w g : Nat) (hg : g ≠ 0) :
    ⌊(w : ℚ) / (g : ℚ) * 100 + 1 / 2⌋ = ((200 * w + g) / (2 * g) : Nat) := by
  have hgQ : (0 : ℚ) < (g : ℚ) := by exact_mod_cast Nat.pos_of_ne_zero hg
  have hgne : (g : ℚ) ≠ 0 := ne_of_gt hgQ
  have hx : (w : ℚ) / (g : ℚ) * 100 + 1 / 2
      = ((200 * w + g : Nat) : ℚ) / ((2 * g : Nat) : ℚ) := by
    push_cast
    field_simp
    ring
  have hnn : (0 : ℚ) ≤ (w : ℚ) / (g : ℚ) * 100 + 1 / 2 := by positivity
  rw [← Int.natCast_floor_eq_floor hnn, hx, Nat.floor_div_eq_div]

/-- C6: calculateWinRate returns 0 on zero games, equals the
round-half-up of 100*wins/gamesPlayed (stated as the integer division
(200*wins + gamesPlayed) / (2*gamesPlayed)) otherwise, yields 33 for
1 win in 3 games and 67 for 2 wins in 3 games, its inputs satisfy
wins <= gamesPlayed in every state reachable from zero by recorded
rounds, and under that bound its value lies in [0, 100]. -/
theorem calculateWinRate_spec :
    (∀ s : GameState, s.gamesPlayed = 0 → calculateWinRate s = 0) ∧
    (∀ s : GameState, s.gamesPlayed ≠ 0 →
      calculateWinRate s
        = ((200 * s.wins + s.gamesPlayed) / (2 * s.gamesPlayed) : Nat)) ∧
    (∀ s : GameState, s.wins = 1 → s.gamesPlayed = 3 → calculateWinRate s = 33) ∧
    (∀ s : GameState, s.wins = 2 → s.gamesPlayed = 3 → calculateWinRate s = 67) ∧
    (∀ results : List Result,
      (runRounds results initialState).wins
        ≤ (runRounds results initialState).gamesPlayed) ∧
    (∀ s : GameState, s.wins ≤ s.gamesPlayed →
      0 ≤ calculateWinRate s ∧ calculateWinRate s ≤ 100) := by
  have hzero : ∀ s : GameState, s.gamesPlayed = 0 → calculateWinRate s = 0 := by
    intro s h
    simp [calculateWinRate, h]
  have hdiv : ∀ s : GameState, s.gamesPlayed ≠ 0 →
      calculateWinRate s
        = ((200 * s.wins + s.gamesPlayed) / (2 * s.gamesPlayed) : Nat) := by
    intro s h
    simp only [calculateWinRate, if_neg h]
    exact roundHalfUp_eq_natDiv s.wins s.gamesPlayed h
  refine ⟨hzero, hdiv, ?_, ?_, ?_, ?_⟩
  · intro s h1 h3
    rw [hdiv s (by omega), h1, h3]
    decide
  · intro s h2 h3
    rw [hdiv s (by omega), h2, h3]
    decide
  · intro results
    have h := runRounds_counts results initialState
    have h0 : initialState.gamesPlayed = 0 ∧ initialState.wins = 0 ∧
        initialState.losses = 0 ∧ initialState.ties = 0 := by decide
    omega
  · intro s hwg
    by_cases h : s.gamesPlayed = 0
    · rw [hzero s h]
      omega
    · rw [hdiv s h]
      have hq : (200 * s.wins + s.gamesPlayed) / (2 * s.gamesPlayed) < 101 := by
        rw [Nat.div_lt_iff_lt_mul (by omega)]
        omega
      constructor
      · exact Int.natCast_nonneg _
      · exact_mod_cast Nat.lt_succ_iff.mp hq

/-- C6 witness: the accessor theorem applied at the zero state and at
concrete states with 1 and 2 wins out of 3 games. -/
theorem calculateWinRate_spec_witness :
    calculateWinRate initialState = 0 ∧
    calculateWinRate { initialState with wins := 1, gamesPlayed := 3 } = 33 ∧
    calculateWinRate { initialState with wins := 2, gamesPlayed := 3 } = 67 ∧
    (0 ≤ calculateWinRate { initialState with wins := 2, gamesPlayed := 3 } ∧
      calculateWinRate { initialState with wins := 2, gamesPlayed := 3 } ≤ 100) :=
  ⟨calculateWinRate_spec.1 initialState rfl,
   calculateWinRate_spec.2.2.1 { initialState with wins := 1, gamesPlayed := 3 } rfl rfl,
   calculateWinRate_spec.2.2.2.1 { initialState with wins := 2, gamesPlayed := 3 } rfl rfl,
   calculateWinRate_spec.2.2.2.2.2 { initialState with wins := 2, gamesPlayed := 3 }
     (by decide)⟩

/-- C9: a playRound call made while the isPlaying guard is set returns
with the state unchanged and nothing recorded or saved; a round that
starts sets the guard; and a completed round always ends with the
guard cleared, so the next round request passes the guard check. -/
theorem playRound_guard (pc cc : Choice) (s : GameState) :
    (s.isPlaying = true → playRound pc cc s = (s, none)) ∧
    (s.isPlaying = false → startRound s = some { s with isPlaying := true }) ∧
    (s.isPlaying = false → (playRound pc cc s).1.isPlaying = false) := by
  refine ⟨fun h => ?_, fun h => ?_, fun h => ?_⟩
  · simp [playRound, startRound, h]
  · simp [startRound, h]
  · simp [playRound, startRound, finishRound, h]

/-- C9 witness: the guard theorem applied at a guarded and at an
unguarded concrete state. -/
theorem playRound_guard_witness :
    playRound Choice.rock Choice.rock { initialState with isPlaying := true }
      = ({ initialState with isPlaying := true }, none) ∧
    startRound initialState = some { initialState with isPlaying := true } ∧
    (playRound Choice.rock Choice.paper initialState).1.isPlaying = false :=
  ⟨(playRound_guard Choice.rock Choice.rock { initialState with isPlaying := true }).1 rfl,
   (playRound_guard Choice.rock Choice.rock initialState).2.1 rfl,
   (playRound_guard Choice.rock Choice.paper initialState).2.2 rfl⟩

/-- C10: every blob playRound saves has isPlaying = true (saveGame
runs before the guard is cleared); loadGame merges a parsed blob
wholesale, isPlaying included; resetGame never touches isPlaying; and
from any state whose guard is set, every sequence of subsequent
playRound requests is ignored, leaving the state unchanged. -/
theorem savedBlob_isPlaying (pc cc : Choice) (s : GameState) :
    (∀ v : StoredValue, (playRound pc cc s).2 = some v →
      ∃ g : GameState, v = StoredValue.blob g ∧ g.isPlaying = true) ∧
    (∀ g : GameState, loadGame (StoredValue.blob g) s = Except.ok g) ∧
    (resetGame s).isPlaying = s.isPlaying ∧
    (s.isPlaying = true →
      ∀ reqs : List (Choice × Choice),
        reqs.foldl (fun t pq => (playRound pq.1 pq.2 t).1) s = s) := by
  refine ⟨?_, fun g => rfl, rfl, ?_⟩
  · intro v hv
    by_cases h : s.isPlaying
    · simp [playRound, startRound, h] at hv
    · simp only [playRound, startRound, if_neg h, finishRound, saveGame] at hv
      injection hv with hv
      refine ⟨_, hv.symm, ?_⟩
      rw [updateGameState_isPlaying]
  · intro h reqs
    induction reqs with
    | nil => rfl
    | cons pq rest ih =>
        have hstep : playRound pq.1 pq.2 s = (s, none) := by
          simp [playRound, startRound, h]
        simp only [List.foldl_cons, hstep]
        exact ih

/-- C10 witness: the persistence theorem applied at the zero state,
with the saved-blob part exercised on the blob of a concrete winning
round and the ignored-requests part on a one-request list from a
guarded state. -/
theorem savedBlob_isPlaying_witness :
    (∃ g : GameState,
      StoredValue.blob
          (updateGameState Result.win { initialState with isPlaying := true })
        = StoredValue.blob g ∧ g.isPlaying = true) ∧
    loadGame (StoredValue.blob initialState) initialState = Except.ok initialState ∧
    (resetGame initialState).isPlaying = initialState.isPlaying ∧
    [(Choice.rock, Choice.paper)].foldl
        (fun t pq => (playRound pq.1 pq.2 t).1) { initialState with isPlaying := true }
      = { initialState with isPlaying := true } :=
  ⟨(savedBlob_isPlaying Choice.rock Choice.scissors initialState).1
      (StoredValue.blob
        (updateGameState Result.win { initialState with isPlaying := true }))
      (by decide),
   (savedBlob_isPlaying Choice.rock Choice.scissors initialState).2.1 initialState,
   (savedBlob_isPlaying Choice.rock Choice.scissors initialState).2.2.1,
   (savedBlob_isPlaying Choice.rock Choice.scissors
      { initialState with isPlaying := true }).2.2.2 rfl
      [(Choice.rock, Choice.paper)]⟩

end RPS
